import Mathlib

/-!
Verification of the movie-list web service (`src/app.py`).

The service is a Flask application over SQLite with five tables
(movies, actors, technicians, movie_actor, movie_technician) and four
handlers: the movies collection (GET with pagination, POST create),
the single movie (GET read, PUT update) and actor deletion (DELETE).

We give a shallow embedding: the database is a record of lists of rows
(SQLite tables scanned in rowid order, i.e. insertion order), a JSON
value type models the response bodies produced by `jsonify` and
`handle_error`, and each handler is a Lean function from the database
state and the request data to the response and the new state.  Row ids
follow SQLite rowid assignment: a fresh row gets `max existing id + 1`
(1 on an empty table), and `cursor.lastrowid` is that id.  The create
handler additionally returns a trace of the SQL statements it executed
(inserts and commits, in program order), which lets us reason about
where the commits fall.
-/

/-- JSON values, as produced by Flask's `jsonify`. -/
inductive Json where
  | null : Json
  | num (n : Int) : Json
  | str (s : String) : Json
  | arr (xs : List Json) : Json
  | obj (fields : List (String × Json)) : Json

/-- An HTTP response: status code plus JSON body. -/
structure Response where
  status : Nat
  body : Json

/-- `jsonify(x)` with a single argument: status 200, body `x`. -/
def jsonify (j : Json) : Response :=
  { status := 200, body := j }

/-- `jsonify(x, n)` with two arguments: Flask serialises the argument
tuple as a JSON array, and the status stays 200 (app.py line 164). -/
def jsonify2 (j : Json) (n : Int) : Response :=
  { status := 200, body := Json.arr [j, Json.num n] }

/-- `handle_error` (app.py lines 86-89): JSON body `{"message": m}`
with the given status code set on the response. -/
def handle_error (message : String) (status_code : Nat) : Response :=
  { status := status_code, body := Json.obj [("message", Json.str message)] }

/-- A row of the `movies` table. -/
structure MovieRow where
  id : Nat
  name : String
  year_of_release : Int
deriving DecidableEq

/-- A row of the `actors` table. -/
structure ActorRow where
  id : Nat
  name : String
deriving DecidableEq

/-- A row of the `technicians` table. -/
structure TechnicianRow where
  id : Nat
  name : String
deriving DecidableEq

/-- A row of the `movie_actor` association table. -/
structure MovieActorRow where
  movie_id : Nat
  actor_id : Nat
deriving DecidableEq

/-- A row of the `movie_technician` association table. -/
structure MovieTechnicianRow where
  movie_id : Nat
  technician_id : Nat
deriving DecidableEq

/-- The database: the five tables, each a list of rows in rowid
(insertion) order. -/
structure DB where
  movies : List MovieRow
  actors : List ActorRow
  technicians : List TechnicianRow
  movie_actor : List MovieActorRow
  movie_technician : List MovieTechnicianRow
deriving DecidableEq

/-- SQLite rowid assignment: the next rowid of a table is one more than
the largest id present (1 for an empty table). -/
def nextId (ids : List Nat) : Nat :=
  ids.foldr max 0 + 1

/-- The JSON body of a POST /movies or PUT /movies/{id} request.
`name` and `year_of_release` are `none` when the key is absent
(the Python `"name" not in data` check); `actors`/`technicians`
default to `[]` when absent (`data.get("actors", [])`). -/
structure MovieBody where
  name : Option String
  year_of_release : Option Int
  actors : List String
  technicians : List String

/-- The SQL statements executed by the create handler, in program
order: row inserts and transaction commits. -/
inductive DBEvent where
  | insertMovie (name : String) (year_of_release : Int) : DBEvent
  | insertActor (name : String) : DBEvent
  | insertMovieActor (movie_id actor_id : Nat) : DBEvent
  | insertTechnician (name : String) : DBEvent
  | insertMovieTechnician (movie_id technician_id : Nat) : DBEvent
  | commit : DBEvent

/-- Number of commits in a trace. -/
def countCommits (tr : List DBEvent) : Nat :=
  tr.countP (fun e => match e with | DBEvent.commit => true | _ => false)

/-- `SELECT id, name, year_of_release FROM movies LIMIT ? OFFSET ?`
(app.py lines 103-106): rows in table order, skipping `offset`,
returning at most `limit`. -/
def selectMoviesLimitOffset (db : DB) (limit offset : Nat) : List MovieRow :=
  (db.movies.drop offset).take limit

/-- The row-to-JSON mapping used by both movie read paths
(app.py lines 107-114 and 185-191). -/
def movieToJson (r : MovieRow) : Json :=
  Json.obj [("id", Json.num r.id), ("name", Json.str r.name),
            ("year_of_release", Json.num r.year_of_release)]

/-- GET /movies (app.py lines 95-117).  `page` and `per_page` are the
parsed query parameters (defaults 1 and 10 are applied by the caller of
`request.args.get`); `offset = (page - 1) * per_page`.  The claims only
quantify over positive values, where Nat subtraction agrees with the
Python arithmetic.  The handler performs no writes, so the database is
returned unchanged. -/
def movies_get (db : DB) (page per_page : Nat) : Response × DB :=
  let offset := (page - 1) * per_page
  let movies_list := (selectMoviesLimitOffset db per_page offset).map movieToJson
  (jsonify (Json.arr movies_list), db)

/-- `INSERT INTO actors (name) VALUES (?)` followed by reading
`cursor.lastrowid` (app.py lines 144-145). -/
def insert_actor (db : DB) (actor_name : String) : DB × Nat :=
  let actor_id := nextId (db.actors.map ActorRow.id)
  ({ db with actors := db.actors ++ [{ id := actor_id, name := actor_name }] },
   actor_id)

/-- `INSERT INTO movie_actor (movie_id, actor_id) VALUES (?, ?)`
(app.py lines 146-149). -/
def insert_movie_actor (db : DB) (movie_id actor_id : Nat) : DB :=
  { db with movie_actor :=
      db.movie_actor ++ [{ movie_id := movie_id, actor_id := actor_id }] }

/-- `INSERT INTO technicians (name) VALUES (?)` followed by reading
`cursor.lastrowid` (app.py lines 152-155). -/
def insert_technician (db : DB) (technician_name : String) : DB × Nat :=
  let technician_id := nextId (db.technicians.map TechnicianRow.id)
  ({ db with technicians :=
      db.technicians ++ [{ id := technician_id, name := technician_name }] },
   technician_id)

/-- `INSERT INTO movie_technician (movie_id, technician_id) VALUES (?, ?)`
(app.py lines 156-159). -/
def insert_movie_technician (db : DB) (movie_id technician_id : Nat) : DB :=
  { db with movie_technician :=
      db.movie_technician ++
        [{ movie_id := movie_id, technician_id := technician_id }] }

/-- The `for actor_name in actors:` loop of the create handler
(app.py lines 143-149), threading the database and the statement
trace. -/
def insertActorsLoop (db : DB) (movie_id : Nat) (names : List String)
    (tr : List DBEvent) : DB × List DBEvent :=
  match names with
  | [] => (db, tr)
  | actor_name :: rest =>
      let p := insert_actor db actor_name
      let db2 := insert_movie_actor p.1 movie_id p.2
      insertActorsLoop db2 movie_id rest
        (tr ++ [DBEvent.insertActor actor_name,
                DBEvent.insertMovieActor movie_id p.2])

/-- The `for technician_name in technicians:` loop of the create
handler (app.py lines 151-159). -/
def insertTechniciansLoop (db : DB) (movie_id : Nat) (names : List String)
    (tr : List DBEvent) : DB × List DBEvent :=
  match names with
  | [] => (db, tr)
  | technician_name :: rest =>
      let p := insert_technician db technician_name
      let db2 := insert_movie_technician p.1 movie_id p.2
      insertTechniciansLoop db2 movie_id rest
        (tr ++ [DBEvent.insertTechnician technician_name,
                DBEvent.insertMovieTechnician movie_id p.2])

/-- The write path of POST /movies (app.py lines 130-167), reached
once the field check has passed: insert the movie row, `conn.commit()`
(line 138), take `movie_id = cursor.lastrowid`, run the actor and
technician loops, `conn.commit()` again (line 161), and return
`jsonify({"message": ...}, 201)`.  The third component is the trace of
executed statements in program order. -/
def movies_post_insert (db : DB) (nm : String) (yr : Int)
    (actors technicians : List String) : Response × DB × List DBEvent :=
  let movie_id := nextId (db.movies.map MovieRow.id)
  let db1 := { db with movies :=
    db.movies ++ [{ id := movie_id, name := nm, year_of_release := yr }] }
  let tr1 := [DBEvent.insertMovie nm yr, DBEvent.commit]
  let p2 := insertActorsLoop db1 movie_id actors tr1
  let p3 := insertTechniciansLoop p2.1 movie_id technicians p2.2
  (jsonify2 (Json.obj [("message",
      Json.str "Movie and associated actors/technicians added successfully")]) 201,
   p3.1, p3.2 ++ [DBEvent.commit])

/-- POST /movies (app.py lines 119-167).  Missing `name` or
`year_of_release` gives a 400 and no writes; otherwise the write path
above runs. -/
def movies_post (db : DB) (data : MovieBody) : Response × DB × List DBEvent :=
  match data.name, data.year_of_release with
  | some nm, some yr => movies_post_insert db nm yr data.actors data.technicians
  | _, _ =>
      (handle_error "Missing required fields (name and year_of_release)" 400,
       db, [])

/-- GET /movies/{id} (app.py lines 173-191): `SELECT ... WHERE id = ?`
with `fetchone` (first matching row in table order), 404 when absent.
No writes. -/
def movie_get (db : DB) (movie_id : Nat) : Response × DB :=
  match db.movies.find? (fun r => r.id == movie_id) with
  | none => (handle_error "Movie not found" 404, db)
  | some movie_data => (jsonify (movieToJson movie_data), db)

/-- PUT /movies/{id} (app.py lines 193-208): missing fields give a 400
and no writes; otherwise an unconditional
`UPDATE movies SET name = ?, year_of_release = ? WHERE id = ?`
(no existence check) and a default-200 success message. -/
def movie_put (db : DB) (movie_id : Nat) (data : MovieBody) : Response × DB :=
  match data.name, data.year_of_release with
  | some nm, some yr =>
      let db1 := { db with movies := db.movies.map (fun r =>
        if r.id == movie_id then
          { r with name := nm, year_of_release := yr }
        else r) }
      (jsonify (Json.obj [("message", Json.str "Movie updated successfully")]), db1)
  | _, _ =>
      (handle_error "Missing required fields (name and year_of_release)" 400, db)

/-- DELETE /actors/{id} (app.py lines 213-229): first
`SELECT 1 FROM movie_actor WHERE actor_id = ? LIMIT 1`; if a row was
found, `DELETE FROM movie_actor WHERE actor_id = ?`; then
unconditionally `DELETE FROM actors WHERE id = ?`; always a 200
success message. -/
def delete_actor (db : DB) (actor_id : Nat) : Response × DB :=
  let db1 :=
    if (db.movie_actor.find? (fun r => r.actor_id == actor_id)).isSome then
      { db with movie_actor :=
          db.movie_actor.filter (fun r => !(r.actor_id == actor_id)) }
    else db
  let db2 := { db1 with actors := db1.actors.filter (fun r => !(r.id == actor_id)) }
  (jsonify (Json.obj [("message", Json.str "Actor deleted successfully")]), db2)

/-- Modelled from the spec: the simpler handler that skips the
preliminary association-existence check and unconditionally deletes all
`movie_actor` rows for the actor, then the actor row.  Written from the
claim's words, to be compared with `delete_actor`. -/
def delete_actor_unconditional (db : DB) (actor_id : Nat) : Response × DB :=
  let db1 := { db with movie_actor :=
      db.movie_actor.filter (fun r => !(r.actor_id == actor_id)) }
  let db2 := { db1 with actors := db1.actors.filter (fun r => !(r.id == actor_id)) }
  (jsonify (Json.obj [("message", Json.str "Actor deleted successfully")]), db2)

/-! ## Helper lemmas about the create handler's loops -/

theorem insertActorsLoop_tables (names : List String) (db : DB) (movie_id : Nat)
    (tr : List DBEvent) :
    (insertActorsLoop db movie_id names tr).1.movies = db.movies ∧
    (insertActorsLoop db movie_id names tr).1.technicians = db.technicians ∧
    (insertActorsLoop db movie_id names tr).1.movie_technician = db.movie_technician ∧
    (insertActorsLoop db movie_id names tr).1.actors.length
      = db.actors.length + names.length ∧
    ∃ new, (insertActorsLoop db movie_id names tr).1.movie_actor
        = db.movie_actor ++ new ∧
      new.length = names.length ∧ ∀ r ∈ new, r.movie_id = movie_id := by
  induction names generalizing db tr with
  | nil =>
      refine ⟨rfl, rfl, rfl, by simp [insertActorsLoop], [], by simp [insertActorsLoop]⟩
  | cons n rest ih =>
      simp only [insertActorsLoop, insert_actor, insert_movie_actor]
      obtain ⟨h1, h2, h3, h4, new, h5, h6, h7⟩ := ih _ _
      refine ⟨h1, h2, h3, by simp [h4]; omega, ?_⟩
      refine ⟨{ movie_id := movie_id, actor_id := nextId (db.actors.map ActorRow.id) } :: new,
        ?_, by simp [h6], ?_⟩
      · simpa using h5
      · intro r hr
        rcases List.mem_cons.mp hr with h | h
        · simp [h]
        · exact h7 r h

theorem insertActorsLoop_trace (names : List String) (db : DB) (movie_id : Nat)
    (tr : List DBEvent) :
    ∃ evs, (insertActorsLoop db movie_id names tr).2 = tr ++ evs ∧
      countCommits evs = 0 := by
  induction names generalizing db tr with
  | nil => exact ⟨[], by simp [insertActorsLoop], rfl⟩
  | cons n rest ih =>
      obtain ⟨evs, h1, h2⟩ := ih
        (insert_movie_actor (insert_actor db n).1 movie_id (insert_actor db n).2)
        (tr ++ [DBEvent.insertActor n, DBEvent.insertMovieActor movie_id (insert_actor db n).2])
      refine ⟨DBEvent.insertActor n ::
        DBEvent.insertMovieActor movie_id (insert_actor db n).2 :: evs, ?_, ?_⟩
      · simp only [insertActorsLoop]
        rw [h1]
        simp
      · simp [countCommits, List.countP_cons] at h2 ⊢
        exact h2

theorem insertTechniciansLoop_tables (names : List String) (db : DB) (movie_id : Nat)
    (tr : List DBEvent) :
    (insertTechniciansLoop db movie_id names tr).1.movies = db.movies ∧
    (insertTechniciansLoop db movie_id names tr).1.actors = db.actors ∧
    (insertTechniciansLoop db movie_id names tr).1.movie_actor = db.movie_actor ∧
    (insertTechniciansLoop db movie_id names tr).1.technicians.length
      = db.technicians.length + names.length ∧
    ∃ new, (insertTechniciansLoop db movie_id names tr).1.movie_technician
        = db.movie_technician ++ new ∧
      new.length = names.length ∧ ∀ r ∈ new, r.movie_id = movie_id := by
  induction names generalizing db tr with
  | nil =>
      refine ⟨rfl, rfl, rfl, by simp [insertTechniciansLoop], [],
        by simp [insertTechniciansLoop]⟩
  | cons n rest ih =>
      simp only [insertTechniciansLoop, insert_technician, insert_movie_technician]
      obtain ⟨h1, h2, h3, h4, new, h5, h6, h7⟩ := ih _ _
      refine ⟨h1, h2, h3, by simp [h4]; omega, ?_⟩
      refine ⟨({ movie_id := movie_id,
                 technician_id := nextId (db.technicians.map TechnicianRow.id) } :
               MovieTechnicianRow) :: new,
        ?_, by simp [h6], ?_⟩
      · simpa using h5
      · intro r hr
        rcases List.mem_cons.mp hr with h | h
        · simp [h]
        · exact h7 r h

theorem insertTechniciansLoop_trace (names : List String) (db : DB) (movie_id : Nat)
    (tr : List DBEvent) :
    ∃ evs, (insertTechniciansLoop db movie_id names tr).2 = tr ++ evs ∧
      countCommits evs = 0 := by
  induction names generalizing db tr with
  | nil => exact ⟨[], by simp [insertTechniciansLoop], rfl⟩
  | cons n rest ih =>
      obtain ⟨evs, h1, h2⟩ := ih
        (insert_movie_technician (insert_technician db n).1 movie_id (insert_technician db n).2)
        (tr ++ [DBEvent.insertTechnician n,
                DBEvent.insertMovieTechnician movie_id (insert_technician db n).2])
      refine ⟨DBEvent.insertTechnician n ::
        DBEvent.insertMovieTechnician movie_id (insert_technician db n).2 :: evs, ?_, ?_⟩
      · simp only [insertTechniciansLoop]
        rw [h1]
        simp
      · simp [countCommits, List.countP_cons] at h2 ⊢
        exact h2

theorem movies_post_insert_tables (db : DB) (nm : String) (yr : Int)
    (acts techs : List String) :
    (movies_post_insert db nm yr acts techs).2.1.movies
      = db.movies ++ [{ id := nextId (db.movies.map MovieRow.id), name := nm,
                        year_of_release := yr }] ∧
    (movies_post_insert db nm yr acts techs).2.1.actors.length
      = db.actors.length + acts.length ∧
    (movies_post_insert db nm yr acts techs).2.1.technicians.length
      = db.technicians.length + techs.length ∧
    (∃ new, (movies_post_insert db nm yr acts techs).2.1.movie_actor
        = db.movie_actor ++ new ∧ new.length = acts.length ∧
        ∀ r ∈ new, r.movie_id = nextId (db.movies.map MovieRow.id)) ∧
    (∃ new, (movies_post_insert db nm yr acts techs).2.1.movie_technician
        = db.movie_technician ++ new ∧ new.length = techs.length ∧
        ∀ r ∈ new, r.movie_id = nextId (db.movies.map MovieRow.id)) := by
  obtain ⟨a1, a2, a3, a4, newA, a5, a6, a7⟩ :=
    insertActorsLoop_tables acts
      { db with movies := db.movies ++
          [{ id := nextId (db.movies.map MovieRow.id), name := nm, year_of_release := yr }] }
      (nextId (db.movies.map MovieRow.id))
      [DBEvent.insertMovie nm yr, DBEvent.commit]
  obtain ⟨t1, t2, t3, t4, newT, t5, t6, t7⟩ :=
    insertTechniciansLoop_tables techs
      (insertActorsLoop
        { db with movies := db.movies ++
            [{ id := nextId (db.movies.map MovieRow.id), name := nm, year_of_release := yr }] }
        (nextId (db.movies.map MovieRow.id)) acts
        [DBEvent.insertMovie nm yr, DBEvent.commit]).1
      (nextId (db.movies.map MovieRow.id))
      (insertActorsLoop
        { db with movies := db.movies ++
            [{ id := nextId (db.movies.map MovieRow.id), name := nm, year_of_release := yr }] }
        (nextId (db.movies.map MovieRow.id)) acts
        [DBEvent.insertMovie nm yr, DBEvent.commit]).2
  simp only [movies_post_insert]
  refine ⟨?_, ?_, ?_, ⟨newA, ?_, a6, a7⟩, ⟨newT, ?_, t6, t7⟩⟩
  · rw [t1, a1]
  · rw [t2, a4]
  · rw [t4, a2]
  · rw [t3, a5]
  · rw [t5, a3]

theorem movies_post_insert_trace_shape (db : DB) (nm : String) (yr : Int)
    (acts techs : List String) :
    ∃ evs, (movies_post_insert db nm yr acts techs).2.2
        = DBEvent.insertMovie nm yr :: DBEvent.commit :: evs ++ [DBEvent.commit] ∧
      countCommits evs = 0 := by
  obtain ⟨evsA, hA1, hA2⟩ :=
    insertActorsLoop_trace acts
      { db with movies := db.movies ++
          [{ id := nextId (db.movies.map MovieRow.id), name := nm, year_of_release := yr }] }
      (nextId (db.movies.map MovieRow.id))
      [DBEvent.insertMovie nm yr, DBEvent.commit]
  obtain ⟨evsT, hT1, hT2⟩ :=
    insertTechniciansLoop_trace techs
      (insertActorsLoop
        { db with movies := db.movies ++
            [{ id := nextId (db.movies.map MovieRow.id), name := nm, year_of_release := yr }] }
        (nextId (db.movies.map MovieRow.id)) acts
        [DBEvent.insertMovie nm yr, DBEvent.commit]).1
      (nextId (db.movies.map MovieRow.id))
      (insertActorsLoop
        { db with movies := db.movies ++
            [{ id := nextId (db.movies.map MovieRow.id), name := nm, year_of_release := yr }] }
        (nextId (db.movies.map MovieRow.id)) acts
        [DBEvent.insertMovie nm yr, DBEvent.commit]).2
  refine ⟨evsA ++ evsT, ?_, ?_⟩
  · simp only [movies_post_insert]
    rw [hT1, hA1]
    simp
  · simp only [countCommits, List.countP_append] at hA2 hT2 ⊢
    omega

/-- C1: for every database state and every create request carrying a
name, a year, N actor names and M technician names, the create
operation appends exactly one movie row (with the fresh id), grows the
actors table by exactly N rows and the technicians table by exactly M
rows, and appends exactly N `movie_actor` rows and M `movie_technician`
rows, every one of which references the new movie's id.  No existence
check or deduplication by name happens anywhere on this path. -/
theorem C1_create_row_counts (db : DB) (data : MovieBody) (nm : String) (yr : Int)
    (hn : data.name = some nm) (hy : data.year_of_release = some yr) :
    (movies_post db data).2.1.movies
      = db.movies ++ [{ id := nextId (db.movies.map MovieRow.id), name := nm,
                        year_of_release := yr }] ∧
    (movies_post db data).2.1.actors.length
      = db.actors.length + data.actors.length ∧
    (movies_post db data).2.1.technicians.length
      = db.technicians.length + data.technicians.length ∧
    (∃ new, (movies_post db data).2.1.movie_actor = db.movie_actor ++ new ∧
      new.length = data.actors.length ∧
      ∀ r ∈ new, r.movie_id = nextId (db.movies.map MovieRow.id)) ∧
    (∃ new, (movies_post db data).2.1.movie_technician = db.movie_technician ++ new ∧
      new.length = data.technicians.length ∧
      ∀ r ∈ new, r.movie_id = nextId (db.movies.map MovieRow.id)) := by
  have h := movies_post_insert_tables db nm yr data.actors data.technicians
  simpa only [movies_post, hn, hy] using h

def dbW1 : DB :=
  { movies := [{ id := 1, name := "Old", year_of_release := 1999 }],
    actors := [{ id := 1, name := "Someone" }], technicians := [],
    movie_actor := [{ movie_id := 1, actor_id := 1 }], movie_technician := [] }

def bodyW1 : MovieBody :=
  { name := some "Inception", year_of_release := some 2010,
    actors := ["Leonardo DiCaprio", "Elliot Page"],
    technicians := ["Hans Zimmer"] }

/-- Witness for C1 at a concrete database and request. -/
theorem C1_create_row_counts_witness :
    (movies_post dbW1 bodyW1).2.1.movies
      = dbW1.movies ++ [{ id := nextId (dbW1.movies.map MovieRow.id),
                          name := "Inception", year_of_release := 2010 }] ∧
    (movies_post dbW1 bodyW1).2.1.actors.length
      = dbW1.actors.length + bodyW1.actors.length ∧
    (movies_post dbW1 bodyW1).2.1.technicians.length
      = dbW1.technicians.length + bodyW1.technicians.length ∧
    (∃ new, (movies_post dbW1 bodyW1).2.1.movie_actor = dbW1.movie_actor ++ new ∧
      new.length = bodyW1.actors.length ∧
      ∀ r ∈ new, r.movie_id = nextId (dbW1.movies.map MovieRow.id)) ∧
    (∃ new, (movies_post dbW1 bodyW1).2.1.movie_technician
        = dbW1.movie_technician ++ new ∧
      new.length = bodyW1.technicians.length ∧
      ∀ r ∈ new, r.movie_id = nextId (dbW1.movies.map MovieRow.id)) :=
  C1_create_row_counts dbW1 bodyW1 "Inception" 2010 rfl rfl

def dbC3 : DB :=
  { movies := [], actors := [], technicians := [],
    movie_actor := [], movie_technician := [] }

def bodyC3 : MovieBody :=
  { name := some "Inception", year_of_release := some 2010,
    actors := ["Leonardo DiCaprio"], technicians := [] }

/-- C3 counterexample: on a concrete create request the handler's
statement trace contains two commits (app.py lines 138 and 161), so it
does not commit exactly once. -/
theorem C3_commit_once_counterexample :
    ¬ countCommits (movies_post dbC3 bodyC3).2.2 = 1 := by
  decide

/-- C3 (amended): the create operation commits twice, not once: the
first commit comes immediately after the movie-row insertion and before
any actor/technician insertion, and the second commit comes after all
insertions, as the final statement executed. -/
theorem C3_commits_amended (db : DB) (data : MovieBody) (nm : String) (yr : Int)
    (hn : data.name = some nm) (hy : data.year_of_release = some yr) :
    ∃ evs, (movies_post db data).2.2
        = DBEvent.insertMovie nm yr :: DBEvent.commit :: evs ++ [DBEvent.commit] ∧
      countCommits evs = 0 ∧
      countCommits (movies_post db data).2.2 = 2 := by
  obtain ⟨evs, h1, h2⟩ :=
    movies_post_insert_trace_shape db nm yr data.actors data.technicians
  refine ⟨evs, ?_, h2, ?_⟩
  · simpa only [movies_post, hn, hy] using h1
  · simp only [movies_post, hn, hy]
    rw [h1]
    simp [countCommits, List.countP_cons, List.countP_append] at h2 ⊢
    exact h2

/-- Witness for the amended C3 at a concrete database and request. -/
theorem C3_commits_amended_witness :
    ∃ evs, (movies_post dbC3 bodyC3).2.2
        = DBEvent.insertMovie "Inception" 2010 :: DBEvent.commit ::
            evs ++ [DBEvent.commit] ∧
      countCommits evs = 0 ∧
      countCommits (movies_post dbC3 bodyC3).2.2 = 2 :=
  C3_commits_amended dbC3 bodyC3 "Inception" 2010 rfl rfl

/-- C4: a successful create returns literal HTTP status 200 (not 201);
the body is the JSON array Flask makes of `jsonify`'s two arguments —
the `{"message": ...}` object and the number 201 — so the intended 201
sits inside the payload instead of being the response status. -/
theorem C4_create_status_200 (db : DB) (data : MovieBody) (nm : String) (yr : Int)
    (hn : data.name = some nm) (hy : data.year_of_release = some yr) :
    (movies_post db data).1.status = 200 ∧
    (movies_post db data).1.body
      = Json.arr [Json.obj [("message",
          Json.str "Movie and associated actors/technicians added successfully")],
        Json.num 201] := by
  simp [movies_post, hn, hy, movies_post_insert, jsonify2]

/-- Witness for C4 at a concrete database and request. -/
theorem C4_create_status_200_witness :
    (movies_post dbC3 bodyC3).1.status = 200 ∧
    (movies_post dbC3 bodyC3).1.body
      = Json.arr [Json.obj [("message",
          Json.str "Movie and associated actors/technicians added successfully")],
        Json.num 201] :=
  C4_create_status_200 dbC3 bodyC3 "Inception" 2010 rfl rfl

/-- C2: for positive `page` and `per_page` the list operation leaves
the database unchanged and returns, in insertion order, at most
`per_page` movies starting at offset `(page-1)*per_page`: the i-th
returned row is the row at position offset+i of the movies table, the
number of returned rows is `min per_page (total - offset)`, and the
result is empty as soon as the table has at most `offset` rows (with
page=2, per_page=5 that is: rows 6-10 when they exist, empty when
fewer than 6 movies exist). -/
theorem C2_pagination (db : DB) (page per_page : Nat)
    (hp : 1 ≤ page) (hq : 1 ≤ per_page) :
    (movies_get db page per_page).2 = db ∧
    (movies_get db page per_page).1
      = jsonify (Json.arr ((selectMoviesLimitOffset db per_page
          ((page - 1) * per_page)).map movieToJson)) ∧
    (∀ i, i < per_page →
      (selectMoviesLimitOffset db per_page ((page - 1) * per_page))[i]?
        = db.movies[(page - 1) * per_page + i]?) ∧
    (selectMoviesLimitOffset db per_page ((page - 1) * per_page)).length
      = min per_page (db.movies.length - (page - 1) * per_page) ∧
    (db.movies.length ≤ (page - 1) * per_page →
      selectMoviesLimitOffset db per_page ((page - 1) * per_page) = []) := by
  refine ⟨rfl, rfl, ?_, ?_, ?_⟩
  · intro i hi
    rw [selectMoviesLimitOffset, List.getElem?_take_of_lt hi, List.getElem?_drop]
  · simp [selectMoviesLimitOffset]
  · intro h
    simp [selectMoviesLimitOffset, List.drop_eq_nil_of_le h]

def dbW2 : DB :=
  { movies := [{ id := 1, name := "M1", year_of_release := 2001 },
               { id := 2, name := "M2", year_of_release := 2002 },
               { id := 3, name := "M3", year_of_release := 2003 },
               { id := 4, name := "M4", year_of_release := 2004 },
               { id := 5, name := "M5", year_of_release := 2005 },
               { id := 6, name := "M6", year_of_release := 2006 },
               { id := 7, name := "M7", year_of_release := 2007 }],
    actors := [], technicians := [], movie_actor := [], movie_technician := [] }

/-- Witness for C2 at a concrete database with page=2, per_page=5. -/
theorem C2_pagination_witness :
    (movies_get dbW2 2 5).2 = dbW2 ∧
    (movies_get dbW2 2 5).1
      = jsonify (Json.arr ((selectMoviesLimitOffset dbW2 5 ((2 - 1) * 5)).map
          movieToJson)) ∧
    (∀ i, i < 5 →
      (selectMoviesLimitOffset dbW2 5 ((2 - 1) * 5))[i]?
        = dbW2.movies[(2 - 1) * 5 + i]?) ∧
    (selectMoviesLimitOffset dbW2 5 ((2 - 1) * 5)).length
      = min 5 (dbW2.movies.length - (2 - 1) * 5) ∧
    (dbW2.movies.length ≤ (2 - 1) * 5 →
      selectMoviesLimitOffset dbW2 5 ((2 - 1) * 5) = []) :=
  C2_pagination dbW2 2 5 (by decide) (by decide)

/-- C5: the single-movie read leaves the database unchanged, a row with
the requested id exists exactly when the SQL lookup finds one, and the
response is 200 with the row's `{id, name, year_of_release}` object
when found, else 404 with `{"message": "Movie not found"}`. -/
theorem C5_single_movie_read (db : DB) (movie_id : Nat) :
    (movie_get db movie_id).2 = db ∧
    ((∃ r ∈ db.movies, r.id = movie_id)
        ↔ (db.movies.find? (fun r => r.id == movie_id)).isSome) ∧
    (movie_get db movie_id).1
      = match db.movies.find? (fun r => r.id == movie_id) with
        | some r =>
            { status := 200,
              body := Json.obj [("id", Json.num r.id), ("name", Json.str r.name),
                                ("year_of_release", Json.num r.year_of_release)] }
        | none =>
            { status := 404,
              body := Json.obj [("message", Json.str "Movie not found")] } := by
  refine ⟨?_, ?_, ?_⟩
  · cases h : db.movies.find? (fun r => r.id == movie_id) <;> simp [movie_get, h]
  · simp [List.find?_isSome]
  · cases h : db.movies.find? (fun r => r.id == movie_id) <;>
      simp [movie_get, h, jsonify, handle_error, movieToJson]

/-- C6: a create or update request whose body lacks `name` or
`year_of_release` gets a 400 with the descriptive message naming the
missing fields, and no table changes. -/
theorem C6_missing_fields_400 (db : DB) (movie_id : Nat) (data : MovieBody)
    (h : data.name = none ∨ data.year_of_release = none) :
    (movies_post db data).1
      = { status := 400, body := Json.obj [("message",
          Json.str "Missing required fields (name and year_of_release)")] } ∧
    (movies_post db data).2.1 = db ∧
    (movie_put db movie_id data).1
      = { status := 400, body := Json.obj [("message",
          Json.str "Missing required fields (name and year_of_release)")] } ∧
    (movie_put db movie_id data).2 = db := by
  rcases h with h | h
  · simp [movies_post, movie_put, h, handle_error]
  · cases hn : data.name <;> simp [movies_post, movie_put, h, hn, handle_error]

def bodyW6 : MovieBody :=
  { name := none, year_of_release := some 1999, actors := [], technicians := [] }

/-- Witness for C6 at a concrete database and a body missing `name`. -/
theorem C6_missing_fields_400_witness :
    (movies_post dbW1 bodyW6).1
      = { status := 400, body := Json.obj [("message",
          Json.str "Missing required fields (name and year_of_release)")] } ∧
    (movies_post dbW1 bodyW6).2.1 = dbW1 ∧
    (movie_put dbW1 1 bodyW6).1
      = { status := 400, body := Json.obj [("message",
          Json.str "Missing required fields (name and year_of_release)")] } ∧
    (movie_put dbW1 1 bodyW6).2 = dbW1 :=
  C6_missing_fields_400 dbW1 1 bodyW6 (Or.inl rfl)

theorem map_eq_self_of_mem {α : Type} (l : List α) (f : α → α)
    (h : ∀ x ∈ l, f x = x) : l.map f = l := by
  induction l with
  | nil => rfl
  | cons a t ih =>
      simp only [List.map_cons]
      rw [h a (List.mem_cons_self a t), ih (fun x hx => h x (List.mem_cons_of_mem a hx))]

/-- C7: updating an id for which no movie row exists still answers the
200 success message, and every table of the database is left exactly as
it was (the unconditional UPDATE matches zero rows). -/
theorem C7_update_absent_id (db : DB) (movie_id : Nat) (data : MovieBody)
    (nm : String) (yr : Int)
    (hn : data.name = some nm) (hy : data.year_of_release = some yr)
    (habs : ∀ r ∈ db.movies, r.id ≠ movie_id) :
    (movie_put db movie_id data).1
      = { status := 200,
          body := Json.obj [("message", Json.str "Movie updated successfully")] } ∧
    (movie_put db movie_id data).2 = db := by
  simp only [movie_put, hn, hy]
  refine ⟨rfl, ?_⟩
  have hmap : db.movies.map (fun r =>
      if r.id == movie_id then { r with name := nm, year_of_release := yr } else r)
      = db.movies := by
    apply map_eq_self_of_mem
    intro r hr
    have : ¬ (r.id == movie_id) = true := by
      simpa using habs r hr
    simp [this]
  show ({ db with movies := db.movies.map (fun r =>
      if r.id == movie_id then { r with name := nm, year_of_release := yr } else r) } : DB)
    = db
  rw [hmap]

/-- Witness for C7: updating id 999999, which no movie has. -/
theorem C7_update_absent_id_witness :
    (movie_put dbW1 999999 { name := some "New", year_of_release := some 2024,
                             actors := [], technicians := [] }).1
      = { status := 200,
          body := Json.obj [("message", Json.str "Movie updated successfully")] } ∧
    (movie_put dbW1 999999 { name := some "New", year_of_release := some 2024,
                             actors := [], technicians := [] }).2 = dbW1 :=
  C7_update_absent_id dbW1 999999
    { name := some "New", year_of_release := some 2024,
      actors := [], technicians := [] }
    "New" 2024 rfl rfl (by decide)

theorem delete_actor_eq (db : DB) (actor_id : Nat) :
    delete_actor db actor_id
      = ({ status := 200,
           body := Json.obj [("message", Json.str "Actor deleted successfully")] },
         { db with
           actors := db.actors.filter (fun r => !(r.id == actor_id)),
           movie_actor :=
             db.movie_actor.filter (fun r => !(r.actor_id == actor_id)) }) := by
  cases h : db.movie_actor.find? (fun r => r.actor_id == actor_id) with
  | none =>
      have hf : db.movie_actor.filter (fun r => !(r.actor_id == actor_id))
          = db.movie_actor := by
        apply List.filter_eq_self.mpr
        intro a ha
        have := List.find?_eq_none.mp h a ha
        simpa using this
      simp [delete_actor, h, hf, jsonify]
  | some x =>
      simp [delete_actor, h, jsonify]

/-- C8: deleting an actor removes exactly the `movie_actor` rows whose
actor_id is the given id and the actor rows with that id, answers the
success message regardless of whether the actor existed, and leaves the
movies, technicians and movie_technician tables untouched. -/
theorem C8_delete_actor_effect (db : DB) (actor_id : Nat) :
    (delete_actor db actor_id).2.movie_actor
      = db.movie_actor.filter (fun r => !(r.actor_id == actor_id)) ∧
    (∀ r, r ∈ (delete_actor db actor_id).2.movie_actor
        ↔ r ∈ db.movie_actor ∧ r.actor_id ≠ actor_id) ∧
    (delete_actor db actor_id).2.actors
      = db.actors.filter (fun r => !(r.id == actor_id)) ∧
    (∀ r, r ∈ (delete_actor db actor_id).2.actors
        ↔ r ∈ db.actors ∧ r.id ≠ actor_id) ∧
    (delete_actor db actor_id).2.movies = db.movies ∧
    (delete_actor db actor_id).2.technicians = db.technicians ∧
    (delete_actor db actor_id).2.movie_technician = db.movie_technician ∧
    (delete_actor db actor_id).1
      = { status := 200,
          body := Json.obj [("message", Json.str "Actor deleted successfully")] } := by
  rw [delete_actor_eq]
  refine ⟨rfl, ?_, rfl, ?_, rfl, rfl, rfl, rfl⟩
  · intro r
    simp [List.mem_filter]
  · intro r
    simp [List.mem_filter]

/-- C9: actor deletion is idempotent: after one deletion, a second
deletion of the same id returns the same success message and changes
nothing (its association lookup finds no row and its actor delete
matches no row). -/
theorem C9_delete_actor_idempotent (db : DB) (actor_id : Nat) :
    (delete_actor (delete_actor db actor_id).2 actor_id).2
      = (delete_actor db actor_id).2 ∧
    (delete_actor db actor_id).1
      = { status := 200,
          body := Json.obj [("message", Json.str "Actor deleted successfully")] } ∧
    (delete_actor (delete_actor db actor_id).2 actor_id).1
      = { status := 200,
          body := Json.obj [("message", Json.str "Actor deleted successfully")] } ∧
    ((delete_actor db actor_id).2.movie_actor.find?
        (fun r => r.actor_id == actor_id)) = none := by
  have h1 := delete_actor_eq db actor_id
  have h2 := delete_actor_eq (delete_actor db actor_id).2 actor_id
  have hma : (delete_actor db actor_id).2.movie_actor.filter
      (fun r => !(r.actor_id == actor_id)) = (delete_actor db actor_id).2.movie_actor := by
    apply List.filter_eq_self.mpr
    intro a ha
    rw [h1] at ha
    simp only [List.mem_filter] at ha
    exact ha.2
  have hac : (delete_actor db actor_id).2.actors.filter
      (fun r => !(r.id == actor_id)) = (delete_actor db actor_id).2.actors := by
    apply List.filter_eq_self.mpr
    intro a ha
    rw [h1] at ha
    simp only [List.mem_filter] at ha
    exact ha.2
  refine ⟨?_, ?_, ?_, ?_⟩
  · rw [h2, hma, hac]
  · rw [h1]
  · rw [h2]
  · apply List.find?_eq_none.mpr
    intro a ha
    rw [h1] at ha
    simp only [List.mem_filter] at ha
    simpa using ha.2

/-- C10: the preliminary association-existence check in the deletion
handler is behaviorally redundant: the handler as written and the
simpler unconditional handler produce the same response and the same
final database state on every input. -/
theorem C10_check_redundant (db : DB) (actor_id : Nat) :
    delete_actor db actor_id = delete_actor_unconditional db actor_id := by
  rw [delete_actor_eq]
  rfl
